import Mathlib

/-!
Verification of the SuperDespacho monthly-projection dashboard
(`src/streamlit_app.py`) against its natural-language specification.

Modelling conventions:
* Python strings are modelled as `List Char`.
* Pandas timestamps only ever carry month granularity here (every timestamp
  in the program is normalized to the first day of its month), so they are
  modelled by a year/month pair `Ym`.
* Numeric values (`float` in the source) are modelled by `ℚ`; the arithmetic
  performed by the program (sums, means, `max 0`) is exact on the values the
  spec reasons about.
* A pandas `Series` indexed by month is modelled as a `List (Ym × Option ℚ)`;
  a `None` value models a missing (`NaN`) entry, which `dropna` removes.
* Library calls (`sort_index`, `tail`, `groupby(...).sum()`, `to_datetime`)
  are modelled by their documented semantics on the inputs the program
  feeds them.
-/

/-- A month-granularity timestamp: a calendar year and a month number. -/
structure Ym where
  year : Nat
  month : Nat
deriving DecidableEq, Repr

/-- Chronological (lexicographic) order on month timestamps. -/
def ymLE (a b : Ym) : Prop :=
  a.year < b.year ∨ (a.year = b.year ∧ a.month ≤ b.month)

/-- Strict chronological order on month timestamps. -/
def ymLT (a b : Ym) : Prop :=
  a.year < b.year ∨ (a.year = b.year ∧ a.month < b.month)

instance : DecidableRel ymLE := fun a b => by
  unfold ymLE; exact inferInstance

instance : DecidableRel ymLT := fun a b => by
  unfold ymLT; exact inferInstance

instance : IsTotal Ym ymLE := ⟨by intro a b; unfold ymLE; omega⟩

instance : IsTrans Ym ymLE := ⟨by intro a b c; unfold ymLE; omega⟩

theorem ymLT_of_ymLE_of_ne (a b : Ym) (h1 : ymLE a b) (h2 : a ≠ b) : ymLT a b := by
  cases a with
  | mk ay am =>
    cases b with
    | mk by' bm =>
      unfold ymLE at h1
      unfold ymLT
      simp only [ne_eq, Ym.mk.injEq, not_and] at h2
      simp only at h1 ⊢
      omega

/-- Chronological order lifted to series entries (pairs of month and value),
used to model `sort_index` on a pandas series. -/
def entryLE (p q : Ym × ℚ) : Prop := ymLE p.1 q.1

instance : DecidableRel entryLE := fun p q => by
  unfold entryLE; exact inferInstance

instance : IsTotal (Ym × ℚ) entryLE :=
  ⟨fun p q => IsTotal.total (r := ymLE) p.1 q.1⟩

instance : IsTrans (Ym × ℚ) entryLE :=
  ⟨fun p q r hpq hqr => IsTrans.trans (r := ymLE) p.1 q.1 r.1 hpq hqr⟩

/-- Python whitespace characters recognized by `str.strip()` (ASCII range,
which is all the program's option strings use). -/
def pyIsSpace (c : Char) : Bool :=
  c = ' ' || c = '\t' || c = '\n' || c = '\r' || c = '\x0b' || c = '\x0c'

/-- Model of Python `str.strip()`: remove leading and trailing whitespace. -/
def pyStrip (l : List Char) : List Char :=
  (l.dropWhile pyIsSpace).rdropWhile pyIsSpace

/-- Model of Python `str.lower()` on the ASCII strings used here. -/
def pyLower (l : List Char) : List Char :=
  l.map Char.toLower

/-- Does the first list occur at the start of the second (helper for
substring containment)? -/
def pyStartsWith : List Char → List Char → Bool
  | [], _ => true
  | _ :: _, [] => false
  | a :: as, b :: bs => a == b && pyStartsWith as bs

/-- Model of Python substring containment `sub in s`. -/
def strContains (sub : List Char) : List Char → Bool
  | [] => sub.isEmpty
  | c :: cs => pyStartsWith sub (c :: cs) || strContains sub cs

/-- Model of `safe_filter_options` (src/streamlit_app.py lines 27-32).
The `query` is `Option` because the Python parameter may be `None`
(line 28 guards with `query or ""`). The function is total: it never
raises. -/
def safe_filter_options (options : List (List Char)) (query : Option (List Char))
    (max_show : Nat) : List (List Char) :=
  let q := pyLower (pyStrip (query.getD []))
  if q = [] then
    options.take max_show
  else
    (options.filter (fun x => strContains q (pyLower x))).take max_show

/-- Model of `normalize_month` (src/streamlit_app.py lines 24-25): at month
granularity, flooring a timestamp to the first day of its month is the
identity on `Ym`. -/
def normalize_month (ts : Ym) : Ym := ts

/-- Arithmetic mean of a list of rationals (model of pandas `Series.mean`
on a series without missing values). -/
def mean (l : List ℚ) : ℚ := l.sum / l.length

/-- Model of Python `max(a, b)`: returns `b` when it exceeds `a`. On a total
order this agrees with `max`, and it is written with an explicit `if` so
that it evaluates by kernel reduction. -/
def pyMax (a b : ℚ) : ℚ := if a ≤ b then b else a

/-- The series entries that survive `dropna()` (src line 42): the
non-missing entries, with their values coerced to numbers. -/
def droppedEntries (series_m : List (Ym × Option ℚ)) : List (Ym × ℚ) :=
  series_m.filterMap (fun p => p.2.map (fun v => (p.1, v)))

/-- Model of `seasonal_baseline` (src/streamlit_app.py lines 34-55).
`series_m.filterMap ...` models `dropna()`, `List.insertionSort entryLE`
models `sort_index()`, `List.rtake` models `Series.tail(k)` (the last `k`
entries), and `pyMax 0` models `max(0.0, yhat)`. -/
def seasonal_baseline (series_m : List (Ym × Option ℚ)) (target_month : Ym)
    (k_years : Nat) (fallback_last_n : Nat) : ℚ :=
  let s := List.insertionSort entryLE (droppedEntries series_m)
  if s = [] then 0
  else
    let m := (normalize_month target_month).month
    let same_month := s.filter (fun p => p.1.month = m)
    if 1 ≤ same_month.length then
      pyMax 0 (mean ((same_month.rtake k_years).map Prod.snd))
    else
      pyMax 0 (mean ((s.rtake fallback_last_n).map Prod.snd))

/-- Spec-side formula for the same-month branch of the baseline, written
from the spec's words: the arithmetic mean of the chronologically-last
`min k_years count` entries of the series restricted to the target's
calendar month, floored at 0. "Chronologically-last `n`" is rendered
directly as reversing the sorted month-`m` subseries, taking `n`, and
restoring the order. -/
def baselineSameMonthSpec (series_m : List (Ym × Option ℚ)) (target_month : Ym)
    (k_years : Nat) : ℚ :=
  let s := List.insertionSort entryLE (droppedEntries series_m)
  let sm := s.filter (fun p => p.1.month = target_month.month)
  let chosen := (sm.reverse.take (min k_years sm.length)).reverse
  pyMax 0 (mean (chosen.map Prod.snd))

/-- Spec-side formula for the fallback branch of the baseline, written from
the spec's words: the arithmetic mean of the chronologically-last
`min fallback_window (length of series)` entries of the full series,
regardless of month, floored at 0. -/
def baselineFallbackSpec (series_m : List (Ym × Option ℚ))
    (fallback_window : Nat) : ℚ :=
  let s := List.insertionSort entryLE (droppedEntries series_m)
  let chosen := (s.reverse.take (min fallback_window s.length)).reverse
  pyMax 0 (mean (chosen.map Prod.snd))

/-- A row of the category-month panel (src/streamlit_app.py: `cat`), with
the three numeric measure columns the aggregation sums. -/
structure CatRow where
  categoria_final : List Char
  anio_mes : Ym
  q_total_mes : ℚ
  ventas_total_mes : ℚ
  margen_total_mes : ℚ
deriving DecidableEq, Repr

/-- A row of the derived company-month panel (`dfE`). -/
structure ERow where
  anio_mes : Ym
  q_total_mes : ℚ
  ventas_total_mes : ℚ
  margen_total_mes : ℚ
deriving DecidableEq, Repr

/-- Sum of one numeric measure over all category rows of a given month. -/
def measureSum (f : CatRow → ℚ) (cat : List CatRow) (t : Ym) : ℚ :=
  ((cat.filter (fun r => r.anio_mes = t)).map f).sum

/-- Model of the company-month aggregate `dfE` (src/streamlit_app.py lines
207-211): `cat.groupby("anio_mes", as_index=False)[cols].sum()` followed by
`sort_values("anio_mes")`. Pandas `groupby(...).sum()` produces one row per
distinct key with each numeric column summed over that key's rows, and the
result is sorted by the key; this is rendered as the sorted deduplicated
month list with the per-month column sums. -/
def dfE (cat : List CatRow) : List ERow :=
  (List.insertionSort ymLE (cat.map CatRow.anio_mes).dedup).map
    (fun t => ⟨t, measureSum CatRow.q_total_mes cat t,
      measureSum CatRow.ventas_total_mes cat t,
      measureSum CatRow.margen_total_mes cat t⟩)

/-- A day-granularity timestamp, for the result of date-string parsing. -/
structure Ymd where
  year : Nat
  month : Nat
  day : Nat
deriving DecidableEq, Repr

/-- Numeric value of a string of decimal digits. -/
def digitsVal (l : List Char) : Nat :=
  l.foldl (fun acc c => 10 * acc + (c.toNat - 48)) 0

/-- All characters are decimal digits. -/
def allDigits (l : List Char) : Bool := l.all Char.isDigit

/-- Helper for `splitDash`: accumulates the current field (reversed). -/
def splitDashAux : List Char → List Char → List (List Char)
  | [], acc => [acc.reverse]
  | c :: rest, acc =>
    if c = '-' then acc.reverse :: splitDashAux rest []
    else splitDashAux rest (c :: acc)

/-- Split a string at every dash character. -/
def splitDash (l : List Char) : List (List Char) := splitDashAux l []

/-- The date lies on or after the first representable pandas midnight:
`Timestamp.min` is 1677-09-21 00:12, so the earliest date whose midnight is
representable is 1677-09-22. A date before that raises
`OutOfBoundsDatetime`. -/
def tsGEmin (y m d : Nat) : Prop :=
  1677 < y ∨ (y = 1677 ∧ (9 < m ∨ (m = 9 ∧ 22 ≤ d)))

/-- The date lies on or before the last representable pandas midnight:
`Timestamp.max` is 2262-04-11 23:47, so the latest date whose midnight is
representable is 2262-04-11. A later date raises `OutOfBoundsDatetime`. -/
def tsLEmax (y m d : Nat) : Prop :=
  y < 2262 ∨ (y = 2262 ∧ (m < 4 ∨ (m = 4 ∧ d ≤ 11)))

instance (y m d : Nat) : Decidable (tsGEmin y m d) := by
  unfold tsGEmin; exact inferInstance

instance (y m d : Nat) : Decidable (tsLEmax y m d) := by
  unfold tsLEmax; exact inferInstance

/-- The year-month pair is one whose first-of-month date pandas can
represent: between 1677-10 and 2262-04 inclusive. -/
def ymInBounds (y m : Nat) : Prop :=
  (1677 < y ∨ (y = 1677 ∧ 10 ≤ m)) ∧ (y < 2262 ∨ (y = 2262 ∧ m ≤ 4))

instance (y m : Nat) : Decidable (ymInBounds y m) := by
  unfold ymInBounds; exact inferInstance

/-- Model of `pd.to_datetime` restricted to the dash-separated numeric
strings this program can feed it (the constant `"-01"` is always appended
to the user's input first). Pandas accepts `YYYY-M(M)-D(D)` and also the
two-field form `YYYY-M(M)`, which it reads as a year and month with the day
defaulting to 1; anything else among these dash-separated shapes raises.
Dates outside the `Timestamp` range (before 1677-09-22 or after
2262-04-11) raise `OutOfBoundsDatetime`, modelled by the `tsGEmin`
and `tsLEmax` conditions. -/
def toDatetimeModel (l : List Char) : Option Ymd :=
  match splitDash l with
  | [y, m, d] =>
    if allDigits y = true ∧ allDigits m = true ∧ allDigits d = true
        ∧ y.length = 4 ∧ 1 ≤ m.length ∧ m.length ≤ 2 ∧ 1 ≤ d.length ∧ d.length ≤ 2
        ∧ 1 ≤ digitsVal m ∧ digitsVal m ≤ 12 ∧ 1 ≤ digitsVal d ∧ digitsVal d ≤ 31
        ∧ tsGEmin (digitsVal y) (digitsVal m) (digitsVal d)
        ∧ tsLEmax (digitsVal y) (digitsVal m) (digitsVal d)
    then some ⟨digitsVal y, digitsVal m, digitsVal d⟩ else none
  | [y, m] =>
    if allDigits y = true ∧ allDigits m = true
        ∧ y.length = 4 ∧ 1 ≤ m.length ∧ m.length ≤ 2
        ∧ 1 ≤ digitsVal m ∧ digitsVal m ≤ 12
        ∧ tsGEmin (digitsVal y) (digitsVal m) 1
        ∧ tsLEmax (digitsVal y) (digitsVal m) 1
    then some ⟨digitsVal y, digitsVal m, 1⟩ else none
  | _ => none

/-- Model of `month_start_from_yyyymm` (src/streamlit_app.py lines 20-22):
`pd.to_datetime(f"{s}-01").to_period("M").to_timestamp()`. A `none` result
models the raised exception, which the caller (lines 107-111) turns into a
user-visible error that halts the view. The trailing `.to_period("M")
.to_timestamp()` floors to the first of the month, i.e. drops the day. -/
def month_start_from_yyyymm (s : List Char) : Option Ym :=
  (toDatetimeModel (s ++ ['-', '0', '1'])).map (fun d => ⟨d.year, d.month⟩)

/-- The `YYYY-MM` format of the spec: exactly four digits, a dash, and two
digits forming a month number between 1 and 12. -/
def isYYYYMM : List Char → Bool
  | [a, b, c, d, e, f, g] =>
    a.isDigit && b.isDigit && c.isDigit && d.isDigit && (e == '-')
      && f.isDigit && g.isDigit
      && decide (1 ≤ digitsVal [f, g]) && decide (digitsVal [f, g] ≤ 12)
  | _ => false

/-- Spec scenario series for the same-month branch:
{2023-02: 100, 2024-02: 150, 2025-02: 200, 2025-06: 50}. -/
def exC1 : List (Ym × Option ℚ) :=
  [(⟨2023, 2⟩, some 100), (⟨2024, 2⟩, some 150),
   (⟨2025, 2⟩, some 200), (⟨2025, 6⟩, some 50)]

/-- Spec scenario series for the fallback branch:
{2025-01: 10, 2025-02: 20, 2025-03: 30}. -/
def exC2 : List (Ym × Option ℚ) :=
  [(⟨2025, 1⟩, some 10), (⟨2025, 2⟩, some 20), (⟨2025, 3⟩, some 30)]

/-- Spec scenario series with a single negative entry {2024-02: -50}. -/
def exC3 : List (Ym × Option ℚ) := [(⟨2024, 2⟩, some (-50))]

/-- A series that is empty after dropping its one missing entry. -/
def exC4 : List (Ym × Option ℚ) := [(⟨2024, 2⟩, (none : Option ℚ))]

/-- A series whose only February entry lies in 2027, strictly after the
2025 target year, plus one other-month entry. -/
def exC5 : List (Ym × Option ℚ) :=
  [(⟨2024, 6⟩, some 7), (⟨2027, 2⟩, some 300)]

theorem rtake_eq_reverse_take_min_reverse {α : Type} (l : List α) (n : Nat) :
    l.rtake n = (l.reverse.take (min n l.length)).reverse := by
  rw [List.rtake_eq_reverse_take_reverse]
  congr 1
  rcases Nat.le_total n l.length with h | h
  · rw [Nat.min_eq_left h]
  · rw [Nat.min_eq_right h, List.take_of_length_le (by simp [h]),
      List.take_of_length_le (by simp [h])]

theorem le_pyMax_left (a b : ℚ) : a ≤ pyMax a b := by
  unfold pyMax
  split
  · assumption
  · exact le_refl a

theorem pyStrip_eq_nil_iff {l : List Char} :
    pyStrip l = [] ↔ ∀ c ∈ l, pyIsSpace c = true := by
  unfold pyStrip
  rw [List.rdropWhile_eq_nil_iff]
  constructor
  · intro h c hc
    rcases List.mem_append.1
        ((List.takeWhile_append_dropWhile pyIsSpace l).symm ▸ hc) with h1 | h2
    · exact List.mem_takeWhile_imp h1
    · exact h c h2
  · intro h c hc
    exact h c ((List.dropWhile_sublist pyIsSpace).subset hc)

theorem insertionSort_ne_nil_of_ne_nil {l : List (Ym × ℚ)} (h : l ≠ []) :
    List.insertionSort entryLE l ≠ [] := by
  intro hnil
  exact h ((hnil ▸ List.perm_insertionSort entryLE l).symm.eq_nil)

/-- C1: for every series that, after dropping missing entries, is non-empty
and has at least one entry in the target's calendar month `m`,
`seasonal_baseline` returns the arithmetic mean of the chronologically-last
`min k_years (count of month-m entries)` entries restricted to month `m`,
floored at 0 (the formula `baselineSameMonthSpec`); a single same-month
occurrence is used on its own, as the `1 ≤ length` guard enforces no
minimum sample size. -/
theorem claim_C1_same_month_mean (series_m : List (Ym × Option ℚ)) (target : Ym)
    (k n : Nat) (h1 : droppedEntries series_m ≠ [])
    (h2 : ∃ p ∈ droppedEntries series_m, p.1.month = target.month) :
    seasonal_baseline series_m target k n = baselineSameMonthSpec series_m target k := by
  have hs := insertionSort_ne_nil_of_ne_nil h1
  obtain ⟨p, hp, hpm⟩ := h2
  have hmem : p ∈ List.insertionSort entryLE (droppedEntries series_m) :=
    (List.mem_insertionSort entryLE).2 hp
  have hlen : 1 ≤ ((List.insertionSort entryLE (droppedEntries series_m)).filter
      (fun q => q.1.month = target.month)).length :=
    List.length_pos_of_mem (List.mem_filter.2 ⟨hmem, by simp [hpm]⟩)
  simp only [seasonal_baseline, baselineSameMonthSpec, normalize_month]
  rw [if_neg hs, if_pos hlen, rtake_eq_reverse_take_min_reverse]

theorem claim_C1_witness :
    droppedEntries exC1 ≠ []
    ∧ (∃ p ∈ droppedEntries exC1, p.1.month = (⟨2026, 2⟩ : Ym).month)
    ∧ seasonal_baseline exC1 ⟨2026, 2⟩ 3 6 = baselineSameMonthSpec exC1 ⟨2026, 2⟩ 3 :=
  ⟨by decide, by decide,
    claim_C1_same_month_mean exC1 ⟨2026, 2⟩ 3 6 (by decide) (by decide)⟩

/-- Spec scenario for C1: series {2023-02: 100, 2024-02: 150, 2025-02: 200,
2025-06: 50} with target 2026-02 and k_years 3 yields 150. -/
theorem scenario_same_month_value : seasonal_baseline exC1 ⟨2026, 2⟩ 3 6 = 150 := by
  norm_num [seasonal_baseline, droppedEntries, mean, pyMax, entryLE, ymLE,
    normalize_month, List.insertionSort, List.orderedInsert, List.rtake, exC1]
  simp

/-- C2: for every series that is non-empty after dropping missing entries
but has no entry in the target's calendar month, `seasonal_baseline`
returns the arithmetic mean of the chronologically-last
`min fallback_window (length of series)` entries of the full series,
floored at 0 (the formula `baselineFallbackSpec`). -/
theorem claim_C2_fallback_mean (series_m : List (Ym × Option ℚ)) (target : Ym)
    (k n : Nat) (h1 : droppedEntries series_m ≠ [])
    (h2 : ∀ p ∈ droppedEntries series_m, p.1.month ≠ target.month) :
    seasonal_baseline series_m target k n = baselineFallbackSpec series_m n := by
  have hs := insertionSort_ne_nil_of_ne_nil h1
  have hfil : (List.insertionSort entryLE (droppedEntries series_m)).filter
      (fun q => q.1.month = target.month) = [] :=
    List.filter_eq_nil_iff.2 (fun a ha => by
      simpa using h2 a ((List.mem_insertionSort entryLE).1 ha))
  simp only [seasonal_baseline, baselineFallbackSpec, normalize_month]
  rw [if_neg hs, hfil, if_neg (by simp), rtake_eq_reverse_take_min_reverse]

theorem claim_C2_witness :
    droppedEntries exC2 ≠ []
    ∧ (∀ p ∈ droppedEntries exC2, p.1.month ≠ (⟨2025, 12⟩ : Ym).month)
    ∧ seasonal_baseline exC2 ⟨2025, 12⟩ 3 6 = baselineFallbackSpec exC2 6 :=
  ⟨by decide, by decide,
    claim_C2_fallback_mean exC2 ⟨2025, 12⟩ 3 6 (by decide) (by decide)⟩

/-- Spec scenario for C2: series {2025-01: 10, 2025-02: 20, 2025-03: 30}
with target 2025-12 (no December entries) yields the mean 20 of all three. -/
theorem scenario_fallback_value : seasonal_baseline exC2 ⟨2025, 12⟩ 3 6 = 20 := by
  norm_num [seasonal_baseline, droppedEntries, mean, pyMax, entryLE, ymLE,
    normalize_month, List.insertionSort, List.orderedInsert, List.rtake, exC2]
  simp

/-- C3: the value of `seasonal_baseline` is never negative, whatever the
series, target month and window parameters (the floor at 0 applies in both
branches), and in particular the series with the single negative entry
{2024-02: -50} projected for 2025-02 yields exactly 0. -/
theorem claim_C3_nonneg :
    (∀ (series_m : List (Ym × Option ℚ)) (target : Ym) (k n : Nat),
      0 ≤ seasonal_baseline series_m target k n)
    ∧ seasonal_baseline exC3 ⟨2025, 2⟩ 3 6 = 0 := by
  constructor
  · intro series_m target k n
    simp only [seasonal_baseline]
    split
    · exact le_refl 0
    · split
      · exact le_pyMax_left 0 _
      · exact le_pyMax_left 0 _
  · norm_num [seasonal_baseline, droppedEntries, mean, pyMax, entryLE, ymLE,
      normalize_month, List.insertionSort, List.orderedInsert, List.rtake, exC3]

/-- C4: a series that is empty after dropping missing entries yields
exactly 0, regardless of the target month and the window parameters. -/
theorem claim_C4_empty_series (series_m : List (Ym × Option ℚ)) (target : Ym)
    (k n : Nat) (h : droppedEntries series_m = []) :
    seasonal_baseline series_m target k n = 0 := by
  simp [seasonal_baseline, h, List.insertionSort]

theorem claim_C4_witness :
    droppedEntries exC4 = [] ∧ seasonal_baseline exC4 ⟨2026, 7⟩ 3 6 = 0 :=
  ⟨by decide, claim_C4_empty_series exC4 ⟨2026, 7⟩ 3 6 (by decide)⟩

/-- C5: the same-month selection filters only by calendar month number, not
by year recency relative to the target: for the series `exC5`, whose only
February entry lies in 2027 — strictly after the 2025 target year — the
baseline for 2025-02 is that future entry's value 300 (the same-month
branch is taken and the future entry is averaged), even though every entry
with value 300 lies strictly after the target year. -/
theorem claim_C5_future_entry_included :
    seasonal_baseline exC5 ⟨2025, 2⟩ 3 6 = 300
    ∧ (∀ p ∈ droppedEntries exC5, p.2 = 300 → 2025 < p.1.year) := by
  constructor
  · norm_num [seasonal_baseline, droppedEntries, mean, pyMax, entryLE, ymLE,
      normalize_month, List.insertionSort, List.orderedInsert, List.rtake, exC5]
    simp
  · decide

/-- C7: an empty or whitespace-only query makes the option filter return
the first `max_show` elements of `options` unchanged and in order. -/
theorem claim_C7_blank_query (options : List (List Char)) (query : List Char)
    (max_show : Nat) (h : ∀ c ∈ query, pyIsSpace c = true) :
    safe_filter_options options (some query) max_show = options.take max_show := by
  have hq : pyStrip query = [] := pyStrip_eq_nil_iff.2 h
  simp [safe_filter_options, hq, pyLower]

theorem claim_C7_witness :
    (∀ c ∈ [' ', '\t'], pyIsSpace c = true)
    ∧ safe_filter_options [['a'], ['b']] (some [' ', '\t']) 1
        = [['a'], ['b']].take 1 :=
  ⟨by decide, claim_C7_blank_query [['a'], ['b']] [' ', '\t'] 1 (by decide)⟩

/-- C8: for a query that is not whitespace-only, the option filter returns
exactly the elements whose lower-cased form contains the lower-cased
trimmed query as a substring, truncated to `max_show`; the result is a
subsequence of `options` (original relative order preserved, and empty
input or no matches yield the empty list) of length at most `max_show`.
The function is total, so it never raises. -/
theorem claim_C8_substring_filter (options : List (List Char)) (query : List Char)
    (max_show : Nat) (h : ¬ ∀ c ∈ query, pyIsSpace c = true) :
    safe_filter_options options (some query) max_show
        = (options.filter
            (fun x => strContains (pyLower (pyStrip query)) (pyLower x))).take max_show
    ∧ (safe_filter_options options (some query) max_show).Sublist options
    ∧ (safe_filter_options options (some query) max_show).length ≤ max_show := by
  have hq : pyStrip query ≠ [] := fun hh => h (pyStrip_eq_nil_iff.1 hh)
  have hql : pyLower (pyStrip query) ≠ [] := by
    unfold pyLower
    simpa using hq
  have e : safe_filter_options options (some query) max_show
      = (options.filter
          (fun x => strContains (pyLower (pyStrip query)) (pyLower x))).take max_show := by
    simp only [safe_filter_options, Option.getD_some]
    rw [if_neg hql]
  refine ⟨e, ?_, ?_⟩
  · rw [e]
    exact (List.take_sublist _ _).trans (List.filter_sublist _)
  · rw [e]
    exact List.length_take_le _ _

theorem claim_C8_witness :
    (¬ ∀ c ∈ ['B'], pyIsSpace c = true)
    ∧ (safe_filter_options [['a', 'B'], ['x']] (some ['B']) 5
          = ([['a', 'B'], ['x']].filter
              (fun x => strContains (pyLower (pyStrip ['B'])) (pyLower x))).take 5
        ∧ (safe_filter_options [['a', 'B'], ['x']] (some ['B']) 5).Sublist
            [['a', 'B'], ['x']]
        ∧ (safe_filter_options [['a', 'B'], ['x']] (some ['B']) 5).length ≤ 5) :=
  ⟨by decide, claim_C8_substring_filter [['a', 'B'], ['x']] ['B'] 5 (by decide)⟩

/-- C10: a missing (`None`) query is tolerated: the option filter does not
raise (it is a total function) and behaves exactly like the empty query,
returning the first `max_show` elements of `options` unchanged. -/
theorem claim_C10_none_query (options : List (List Char)) (max_show : Nat) :
    safe_filter_options options none max_show = options.take max_show
    ∧ safe_filter_options options none max_show
        = safe_filter_options options (some []) max_show := by
  constructor <;> rfl

theorem not_dash_of_isDigit {c : Char} (h : c.isDigit = true) : ¬ (c = '-') := by
  intro hc
  subst hc
  exact absurd h (by decide)

theorem tsGEmin_day1 (y m : Nat) (h : 1677 < y ∨ (y = 1677 ∧ 10 ≤ m)) :
    tsGEmin y m 1 := by
  unfold tsGEmin
  omega

theorem tsLEmax_day1 (y m : Nat) (h : y < 2262 ∨ (y = 2262 ∧ m ≤ 4)) :
    tsLEmax y m 1 := by
  unfold tsLEmax
  omega

/-- C9 (counterexample): it is false that target-month parsing succeeds
exactly on `YYYY-MM` strings, and the equivalence fails in both
directions: the string "2026" is not in `YYYY-MM` format, yet
`month_start_from_yyyymm` accepts it (pandas reads "2026-01" as year 2026,
month 01), while "9999-12" is in `YYYY-MM` format, yet parsing it raises
(`OutOfBoundsDatetime`: the date 9999-12-01 exceeds the pandas `Timestamp`
range). -/
theorem claim_C9_counterexample :
    ¬ ((month_start_from_yyyymm ['2', '0', '2', '6']).isSome = true
        ↔ isYYYYMM ['2', '0', '2', '6'] = true)
    ∧ ¬ ((month_start_from_yyyymm ['9', '9', '9', '9', '-', '1', '2']).isSome = true
        ↔ isYYYYMM ['9', '9', '9', '9', '-', '1', '2'] = true) := by
  decide

/-- C9 (amended): acceptance is not characterized by the `YYYY-MM` format.
What holds is: every `YYYY-MM` string whose year-month lies inside the
pandas `Timestamp` range (1677-10 through 2262-04) parses successfully to
the first-of-month timestamp made of its year and month digits. Outside
that, the sets are incomparable: the non-`YYYY-MM` string "2026" is
accepted, while the `YYYY-MM` string "9999-12" raises (see the
counterexample); any raise is surfaced as the non-fatal, view-halting
error. -/
theorem claim_C9_yyyymm_parses (s : List Char) (h : isYYYYMM s = true)
    (hb : ymInBounds (digitsVal (s.take 4)) (digitsVal (s.drop 5))) :
    month_start_from_yyyymm s = some ⟨digitsVal (s.take 4), digitsVal (s.drop 5)⟩ := by
  cases s with
  | nil => simp [isYYYYMM] at h
  | cons a s => cases s with
    | nil => simp [isYYYYMM] at h
    | cons b s => cases s with
      | nil => simp [isYYYYMM] at h
      | cons c s => cases s with
        | nil => simp [isYYYYMM] at h
        | cons d s => cases s with
          | nil => simp [isYYYYMM] at h
          | cons e s => cases s with
            | nil => simp [isYYYYMM] at h
            | cons f s => cases s with
              | nil => simp [isYYYYMM] at h
              | cons g s => cases s with
                | cons x t => simp [isYYYYMM] at h
                | nil =>
                  simp only [isYYYYMM, Bool.and_eq_true, beq_iff_eq,
                    decide_eq_true_eq] at h
                  obtain ⟨⟨⟨⟨⟨⟨⟨⟨ha, hb'⟩, hc⟩, hd⟩, he⟩, hf⟩, hg⟩, h1⟩, h2⟩ := h
                  subst he
                  have hbb : ymInBounds (digitsVal [a, b, c, d])
                      (digitsVal [f, g]) := hb
                  have hge : tsGEmin (digitsVal [a, b, c, d]) (digitsVal [f, g])
                      (digitsVal ['0', '1']) := by
                    have e : digitsVal ['0', '1'] = 1 := by decide
                    rw [e]
                    exact tsGEmin_day1 _ _ hbb.1
                  have hle : tsLEmax (digitsVal [a, b, c, d]) (digitsVal [f, g])
                      (digitsVal ['0', '1']) := by
                    have e : digitsVal ['0', '1'] = 1 := by decide
                    rw [e]
                    exact tsLEmax_day1 _ _ hbb.2
                  simp only [month_start_from_yyyymm, toDatetimeModel, splitDash,
                    List.cons_append, List.nil_append]
                  simp +decide only [splitDashAux, not_dash_of_isDigit ha,
                    not_dash_of_isDigit hb', not_dash_of_isDigit hc,
                    not_dash_of_isDigit hd, not_dash_of_isDigit hf,
                    not_dash_of_isDigit hg, if_false, ite_true, ite_false,
                    List.reverse_cons,
                    List.reverse_nil, List.nil_append, List.cons_append]
                  rw [if_pos]
                  · rfl
                  · simp [allDigits, ha, hb', hc, hd, hf, hg, h1, h2, hge, hle]

theorem claim_C9_witness :
    isYYYYMM ['2', '0', '2', '6', '-', '0', '2'] = true
    ∧ ymInBounds (digitsVal (['2', '0', '2', '6', '-', '0', '2'].take 4))
        (digitsVal (['2', '0', '2', '6', '-', '0', '2'].drop 5))
    ∧ month_start_from_yyyymm ['2', '0', '2', '6', '-', '0', '2']
        = some ⟨digitsVal (['2', '0', '2', '6', '-', '0', '2'].take 4),
            digitsVal (['2', '0', '2', '6', '-', '0', '2'].drop 5)⟩ :=
  ⟨by decide, by decide,
    claim_C9_yyyymm_parses ['2', '0', '2', '6', '-', '0', '2'] (by decide) (by decide)⟩

/-- C6: for every category-month panel, the derived company-month aggregate
`dfE` has strictly increasing months (hence exactly one row per distinct
month, sorted ascending), a month appears in it exactly when some category
row of the input carries that month, and each of the three numeric measures
of a row equals the sum of that measure over all category rows of that
month. -/
theorem claim_C6_company_aggregate (cat : List CatRow) :
    List.Pairwise (fun e1 e2 : ERow => ymLT e1.anio_mes e2.anio_mes) (dfE cat)
    ∧ (∀ t : Ym, (∃ e ∈ dfE cat, e.anio_mes = t) ↔ ∃ r ∈ cat, r.anio_mes = t)
    ∧ (∀ e ∈ dfE cat,
        e.q_total_mes
            = ((cat.filter (fun r => r.anio_mes = e.anio_mes)).map
                CatRow.q_total_mes).sum
        ∧ e.ventas_total_mes
            = ((cat.filter (fun r => r.anio_mes = e.anio_mes)).map
                CatRow.ventas_total_mes).sum
        ∧ e.margen_total_mes
            = ((cat.filter (fun r => r.anio_mes = e.anio_mes)).map
                CatRow.margen_total_mes).sum) := by
  have hnodup : (List.insertionSort ymLE (cat.map CatRow.anio_mes).dedup).Nodup :=
    (List.perm_insertionSort ymLE _).nodup_iff.2 (List.nodup_dedup _)
  have hsorted : List.Pairwise ymLE
      (List.insertionSort ymLE (cat.map CatRow.anio_mes).dedup) :=
    List.sorted_insertionSort ymLE _
  have hpw : List.Pairwise ymLT
      (List.insertionSort ymLE (cat.map CatRow.anio_mes).dedup) :=
    List.Pairwise.imp₂ ymLT_of_ymLE_of_ne hsorted hnodup
  have hmonths : ∀ t : Ym,
      t ∈ List.insertionSort ymLE (cat.map CatRow.anio_mes).dedup
        ↔ ∃ r ∈ cat, r.anio_mes = t := by
    intro t
    rw [List.mem_insertionSort, List.mem_dedup, List.mem_map]
  refine ⟨?_, ?_, ?_⟩
  · exact (List.pairwise_map).2 hpw
  · intro t
    constructor
    · rintro ⟨e, he, het⟩
      obtain ⟨t', ht', rfl⟩ := List.mem_map.1 he
      exact (hmonths t).1 (het ▸ ht')
    · intro hr
      exact ⟨_, List.mem_map_of_mem _ ((hmonths t).2 hr), rfl⟩
  · intro e he
    obtain ⟨t', ht', rfl⟩ := List.mem_map.1 he
    exact ⟨rfl, rfl, rfl⟩
